import Mathlib

/-!
Verification of the VeilraOS relay settlement state machine (mixer sessions)
against its specification.

The definitions below are a shallow embedding of `server/routes.ts` and of the
`DatabaseStorage` session-store methods of the storage module:
the mixer-session data model, the session store operations, the deposit
verifiers (`verifyTransaction` for Solana, `verifyEthTransaction` for
ETH/BNB), the payout dispatchers (`sendFromPool`, `sendFromPoolETH`,
`sendFromPoolBNB`), and the four HTTP handlers of the mixer core
(session creation, deposit confirmation, and the two read endpoints).

Modelling conventions:
- JS strings stay `String`; a missing/empty request field is modelled as `""`
  (JS falsiness of the empty string), a nullable stored column as `""` or
  `Option`.
- Decimal amounts that the code manipulates as JS numbers are modelled as `ℚ`;
  the float→native-unit conversions (`Math.floor(x * LAMPORTS_PER_SOL)`,
  `ethers.parseEther`) are modelled as exact rational arithmetic with `Rat.floor`.
- Awaited chain-client responses (the looked-up transaction, the receipt, the
  payout submission outcome) are inputs of the embedded functions.
- Timestamps (`new Date()`) are modelled as a `Nat` parameter `now`.

Batteries marks the arithmetic of `ℚ` `@[irreducible]`; concrete evaluation in
witnesses needs it unfolded.
-/

attribute [local semireducible] Rat.mul Rat.inv Rat.add Rat.sub Rat.ofScientific

/-- Status and signature columns of a `mixer_sessions` row, as read and written
by `server/routes.ts`. Field names follow the source. -/
structure MixerSession where
  id : String
  chain : String
  senderAddress : String
  recipientAddress : String
  amount : String
  status : String
  depositSignature : Option String
  payoutSignature : Option String
  createdAt : Nat
  depositConfirmedAt : Option Nat
  payoutSentAt : Option Nat
deriving DecidableEq, Repr

/-- The session store: the rows of the `mixer_sessions` table. -/
abbrev Store := List MixerSession

/-- `DatabaseStorage.getMixerSession(id)` (storage module):
`db.select().from(mixerSessions).where(eq(mixerSessions.id, id))` — the row
with the matching id, if any. -/
def getMixerSession (store : Store) (id : String) : Option MixerSession :=
  store.find? (fun s => s.id == id)

/-- `DatabaseStorage.updateMixerSession(id, updates)` (storage module):
`db.update(mixerSessions).set(updates).where(eq(mixerSessions.id, id))` — the
given field changes are applied to the row with the matching id
unconditionally; the `where` clause matches on the id only, with no
conditional clause on the previous status (no compare-and-swap). -/
def updateMixerSession (store : Store) (id : String) (f : MixerSession → MixerSession) : Store :=
  store.map (fun s => if s.id == id then f s else s)

/-- `DatabaseStorage.createMixerSession(session)` (storage module):
`db.insert(mixerSessions).values(insertSession).returning()` — append the new
row; its database-generated id enters the model through the creation
handler's `newId` parameter. -/
def createMixerSession (store : Store) (s : MixerSession) : Store :=
  store ++ [s]

/-- Stable insertion step of the descending-`createdAt` ordering used by
`getMixerSessionsByAddress`. -/
def insertByCreatedAtDesc (s : MixerSession) : List MixerSession → List MixerSession
  | [] => [s]
  | t :: rest =>
    if t.createdAt ≤ s.createdAt then s :: t :: rest
    else t :: insertByCreatedAtDesc s rest

/-- Stable sort by `createdAt` descending (`orderBy(desc(mixerSessions.createdAt))`). -/
def sortByCreatedAtDesc : List MixerSession → List MixerSession
  | [] => []
  | s :: rest => insertByCreatedAtDesc s (sortByCreatedAtDesc rest)

/-- `DatabaseStorage.getMixerSessionsByAddress(address)` (storage module):
`db.select().from(mixerSessions).where(eq(mixerSessions.senderAddress, address))
.orderBy(desc(mixerSessions.createdAt))` — the sessions whose sender is the
address, newest first. -/
def getMixerSessionsByAddress (store : Store) (address : String) : List MixerSession :=
  sortByCreatedAtDesc (store.filter (fun s => s.senderAddress == address))

/-- JS `String.prototype.toLowerCase()` as used on chain identifiers and hex
addresses (ASCII case mapping), written over the character list so that
concrete evaluation reduces in the kernel. -/
def jsToLowerCase (s : String) : String :=
  String.mk (s.data.map Char.toLower)

/-- Result shape shared by `verifyTransaction` and `verifyEthTransaction`:
`{ valid: boolean; error?: string; actualSender?: string }`. -/
structure VerifyResult where
  valid : Bool
  error : Option String
  actualSender : Option String
deriving DecidableEq, Repr

/-- The parts of a Solana `getTransaction` response read by `verifyTransaction`:
`meta.err`, `meta.preBalances`, `meta.postBalances`, `meta.fee`, and the base58
renderings of the first two account keys. -/
structure SolTx where
  accountKeys : List String
  err : Bool
  preBalances : List Int
  postBalances : List Int
  fee : Int
deriving DecidableEq, Repr

/-- `LAMPORTS_PER_SOL`. -/
def LAMPORTS_PER_SOL : ℚ := 1000000000

/-- `Math.floor(parseFloat(amount) * LAMPORTS_PER_SOL)` with the decimal amount
modelled as an exact rational. -/
def lamportsOfAmount (amount : ℚ) : Int :=
  Rat.floor (amount * LAMPORTS_PER_SOL)

/-- `verifyTransaction(signature, fromAddress, toAddress, amount)` from
`server/routes.ts`. The chain lookup result is the input `tx?` (`none` when
the RPC returns no transaction). The balance-delta amount check uses
`preBalances[0] - postBalances[0] - fee` against a 1000-lamport tolerance.
Note: there is no special case for `fromAddress = "pending"` and the result
never carries an `actualSender`. -/
def verifyTransaction (tx? : Option SolTx) (fromAddress toAddress : String)
    (amount : ℚ) : VerifyResult :=
  match tx? with
  | none => ⟨false, some "Transaction not found on chain", none⟩
  | some tx =>
    if tx.err then ⟨false, some "Transaction failed on chain", none⟩
    else if tx.accountKeys.get? 0 != some fromAddress then
      ⟨false, some "Sender address mismatch", none⟩
    else if tx.accountKeys.get? 1 != some toAddress then
      ⟨false, some "Recipient address mismatch", none⟩
    else
      let transferredLamports :=
        (tx.preBalances.getD 0 0) - (tx.postBalances.getD 0 0) - tx.fee
      let expectedLamports := lamportsOfAmount amount
      if 1000 < (transferredLamports - expectedLamports).natAbs then
        ⟨false, some "Amount mismatch", none⟩
      else ⟨true, none, none⟩

/-- The parts of an EVM transaction read by `verifyEthTransaction`:
`tx.from`, `tx.to` (nullable) and `tx.value` in wei. -/
structure EthTx where
  fromAddr : String
  toAddr : Option String
  value : Int
deriving DecidableEq, Repr

/-- The part of an EVM transaction receipt read by `verifyEthTransaction`:
`receipt.status`. -/
structure EthReceipt where
  status : Nat
deriving DecidableEq, Repr

/-- `ethers.parseEther` on a decimal amount modelled as an exact rational:
the value in wei (`10^18` wei per unit). -/
def parseEtherQ (amount : ℚ) : Int :=
  Rat.floor (amount * 1000000000000000000)

/-- `verifyEthTransaction(txHash, fromAddress, toAddress, amount, provider)`
from `server/routes.ts`, used for both ETH and BNB. The transaction lookup and
receipt lookup results are the inputs `tx?` and `receipt?`. The sender check
is skipped when `fromAddress` is the `"pending"` sentinel; the tolerance is
`parseEther("0.0001")` wei. -/
def verifyEthTransaction (tx? : Option EthTx) (receipt? : Option EthReceipt)
    (fromAddress toAddress : String) (amount : ℚ) : VerifyResult :=
  match tx? with
  | none => ⟨false, some "Transaction not found on chain", none⟩
  | some tx =>
    match receipt? with
    | none => ⟨false, some "Transaction failed on chain", none⟩
    | some receipt =>
      if receipt.status == 0 then ⟨false, some "Transaction failed on chain", none⟩
      else if fromAddress != "pending" && jsToLowerCase tx.fromAddr != jsToLowerCase fromAddress then
        ⟨false, some "Sender address mismatch", none⟩
      else if (tx.toAddr.map jsToLowerCase) != some (jsToLowerCase toAddress) then
        ⟨false, some "Recipient address mismatch", none⟩
      else
        let expectedWei := parseEtherQ amount
        let tolerance := parseEtherQ (1 / 10000)
        let diff := if expectedWei < tx.value then tx.value - expectedWei
                    else expectedWei - tx.value
        if tolerance < diff then ⟨false, some "Amount mismatch", some tx.fromAddr⟩
        else ⟨true, none, some tx.fromAddr⟩

/-- `NETWORK_FEE_LAMPORTS`. -/
def NETWORK_FEE_LAMPORTS : Int := 5000

/-- `sendFromPool(recipientAddress, amountSol)`: the Solana payout dispatcher.
`hasPool` models whether `poolWallet` was initialized. A successful result is
the number of lamports of the single submitted transfer (the transaction
signature itself is chain-produced and irrelevant to the claims); an `error`
result models a thrown `Error` before any submission. -/
def sendFromPool (hasPool : Bool) (amountSol : ℚ) : Except String Int :=
  if !hasPool then .error "Pool wallet not initialized"
  else if lamportsOfAmount amountSol - NETWORK_FEE_LAMPORTS ≤ 0 then
    .error "Amount too small to cover network fee"
  else .ok (lamportsOfAmount amountSol - NETWORK_FEE_LAMPORTS)

/-- `sendFromPoolETH(recipientAddress, amountEth)`: gas fee
`parseEther("0.001")` wei; a successful result is the wei of the submitted
transfer. -/
def sendFromPoolETH (hasPool : Bool) (amountEth : ℚ) : Except String Int :=
  if !hasPool then .error "ETH Pool wallet not initialized"
  else if parseEtherQ amountEth - parseEtherQ (1 / 1000) ≤ 0 then
    .error "Amount too small to cover network fee"
  else .ok (parseEtherQ amountEth - parseEtherQ (1 / 1000))

/-- `sendFromPoolBNB(recipientAddress, amountBnb)`: gas fee
`parseEther("0.0005")` wei. -/
def sendFromPoolBNB (hasPool : Bool) (amountBnb : ℚ) : Except String Int :=
  if !hasPool then .error "BNB Pool wallet not initialized"
  else if parseEtherQ amountBnb - parseEtherQ (5 / 10000) ≤ 0 then
    .error "Amount too small to cover network fee"
  else .ok (parseEtherQ amountBnb - parseEtherQ (5 / 10000))

/-- An HTTP response of the mixer endpoints: status code plus the `error`
field of the JSON body (`none` on success). -/
structure ApiResult where
  code : Nat
  error : Option String
deriving DecidableEq, Repr

/-- The per-chain environment read by the handlers: the lazily initialized
pool addresses (`none` when the corresponding private key is absent) and the
chain-specific address validators (`new PublicKey(...)` succeeding for
Solana, `ethers.isAddress` for ETH/BNB). -/
structure ChainEnv where
  solPool : Option String
  ethPool : Option String
  bnbPool : Option String
  isValidSolAddress : String → Bool
  isValidEthAddress : String → Bool

/-- A freshly created session row: `status: "pending"`, `amount: amount.toString()`,
`chain: chain.toLowerCase()`, signatures and transition timestamps unset. -/
def newMixerSession (newId chainLower senderAddress recipientAddress amount : String)
    (now : Nat) : MixerSession :=
  ⟨newId, chainLower, senderAddress, recipientAddress, amount, "pending",
    none, none, now, none, none⟩

/-- `POST /api/mixer/sessions` from `server/routes.ts`. The body fields are the
`String` arguments (`""` for a missing or empty field, matching JS falsiness
of the destructured values); `chain` is `none` when the body omits it (the
destructuring default `"solana"` then applies). `newId` is the id the store
generates for the inserted row. Note: beyond the truthiness check of the
three required fields, the handler performs no validation of `amount`. -/
def createSessionHandler (env : ChainEnv) (store : Store) (newId : String) (now : Nat)
    (senderAddress recipientAddress amount : String) (chain : Option String) :
    ApiResult × Store :=
  if senderAddress == "" || recipientAddress == "" || amount == "" then
    (⟨400, some "Missing required fields"⟩, store)
  else if jsToLowerCase (chain.getD "solana") == "solana" then
    match env.solPool with
    | none => (⟨503, some "Solana pool wallet not configured"⟩, store)
    | some _ =>
      if env.isValidSolAddress senderAddress && env.isValidSolAddress recipientAddress then
        (⟨201, none⟩,
          createMixerSession store
            (newMixerSession newId (jsToLowerCase (chain.getD "solana"))
              senderAddress recipientAddress amount now))
      else (⟨400, some "Invalid Solana address"⟩, store)
  else if jsToLowerCase (chain.getD "solana") == "ethereum"
      || jsToLowerCase (chain.getD "solana") == "eth" then
    match env.ethPool with
    | none => (⟨503, some "ETH pool wallet not configured"⟩, store)
    | some _ =>
      if env.isValidEthAddress senderAddress && env.isValidEthAddress recipientAddress then
        (⟨201, none⟩,
          createMixerSession store
            (newMixerSession newId (jsToLowerCase (chain.getD "solana"))
              senderAddress recipientAddress amount now))
      else (⟨400, some "Invalid Ethereum address"⟩, store)
  else if jsToLowerCase (chain.getD "solana") == "bnb"
      || jsToLowerCase (chain.getD "solana") == "bsc" then
    match env.bnbPool with
    | none => (⟨503, some "BNB pool wallet not configured"⟩, store)
    | some _ =>
      if env.isValidEthAddress senderAddress && env.isValidEthAddress recipientAddress then
        (⟨201, none⟩,
          createMixerSession store
            (newMixerSession newId (jsToLowerCase (chain.getD "solana"))
              senderAddress recipientAddress amount now))
      else (⟨400, some "Invalid BNB address"⟩, store)
  else (⟨400, some "Unsupported chain"⟩, store)

/-- Chains accepted by the `switch` of the confirm-deposit handler. -/
def supportedChain (chain : String) : Bool :=
  let c := jsToLowerCase chain
  c == "solana" || c == "ethereum" || c == "eth" || c == "bnb" || c == "bsc"

/-- JS truthiness of `verification.actualSender` (a `string | undefined`):
present and non-empty. -/
def optTruthy (o : Option String) : Bool :=
  match o with
  | some a => a != ""
  | none => false

/-- The `updateData` of the first `storage.updateMixerSession` call on
verification success: `depositSignature`, `status: "deposit_confirmed"`,
`depositConfirmedAt`, plus `senderAddress` when the read session held the
`"pending"` sentinel and verification revealed the actual sender
(`newSender` is that already-computed optional field value). -/
def applyDepositConfirm (sig : String) (newSender : Option String) (now : Nat)
    (s : MixerSession) : MixerSession :=
  match newSender with
  | some a =>
    { s with depositSignature := some sig, status := "deposit_confirmed",
             depositConfirmedAt := some now, senderAddress := a }
  | none =>
    { s with depositSignature := some sig, status := "deposit_confirmed",
             depositConfirmedAt := some now }

/-- The `updateData` of the success-path second update: `payoutSignature`,
`status: "completed"`, `payoutSentAt`. -/
def applyPayoutSuccess (payoutSig : String) (now : Nat) (s : MixerSession) : MixerSession :=
  { s with payoutSignature := some payoutSig, status := "completed",
           payoutSentAt := some now }

/-- The failure-path update: `status: "payout_failed"` only. -/
def applyPayoutFailed (s : MixerSession) : MixerSession :=
  { s with status := "payout_failed" }

/-- `POST /api/mixer/sessions/:id/confirm-deposit` from `server/routes.ts`.
`depositSignature = ""` models a missing/empty body field. The awaited
external results are inputs: `v` is the verifier's result for the session's
chain (all three chain branches produce the same result shape and feed the
same subsequent logic), and `payout` is the dispatcher outcome (`.ok sig`
for a confirmed submission, `.error msg` for a thrown payout error). -/
def confirmDepositHandler (store : Store) (id depositSignature : String)
    (v : VerifyResult) (payout : Except String String) (now : Nat) :
    ApiResult × Store :=
  if depositSignature == "" then (⟨400, some "Deposit signature required"⟩, store)
  else
    match getMixerSession store id with
    | none => (⟨404, some "Session not found"⟩, store)
    | some session =>
      if session.status != "pending" then
        (⟨400, some "Session not in pending state"⟩, store)
      else
        let chain := if session.chain == "" then "solana" else session.chain
        if supportedChain chain then
          if v.valid then
            let newSender : Option String :=
              if session.senderAddress == "pending" && optTruthy v.actualSender then
                v.actualSender
              else none
            let store1 := updateMixerSession store id
              (applyDepositConfirm depositSignature newSender now)
            match payout with
            | .ok payoutSig =>
              (⟨200, none⟩, updateMixerSession store1 id (applyPayoutSuccess payoutSig now))
            | .error _ =>
              (⟨500, some "Payout failed"⟩, updateMixerSession store1 id applyPayoutFailed)
          else (⟨400, some "Deposit verification failed"⟩, store)
        else (⟨400, some "Unsupported chain"⟩, store)

/-- The public projection of a session returned by both read endpoints:
exactly these eight fields. -/
structure SessionView where
  sessionId : String
  status : String
  amount : String
  chain : String
  recipientAddress : String
  depositSignature : Option String
  payoutSignature : Option String
  createdAt : Nat
deriving DecidableEq, Repr

/-- The field-for-field projection built by the response literals of
`GET /api/mixer/sessions/:id` and `GET /api/mixer/sessions`. -/
def sessionView (s : MixerSession) : SessionView :=
  ⟨s.id, s.status, s.amount, s.chain, s.recipientAddress,
    s.depositSignature, s.payoutSignature, s.createdAt⟩

/-- `GET /api/mixer/sessions/:id`: status code, optional body, and the store
it leaves behind. -/
def getSessionHandler (store : Store) (id : String) :
    (Nat × Option SessionView) × Store :=
  match getMixerSession store id with
  | none => ((404, none), store)
  | some s => ((200, some (sessionView s)), store)

/-- `GET /api/mixer/sessions?address=`: the list endpoint. -/
def listSessionsHandler (store : Store) (address : String) :
    (Nat × List SessionView) × Store :=
  if address == "" then ((400, []), store)
  else ((200, (getMixerSessionsByAddress store address).map sessionView), store)

/-!
Concurrency model for the confirm-deposit handler. Node interleaves requests
at `await` boundaries; the handler's storage interactions are, in source
order: `await storage.getMixerSession(id)` (followed by the synchronous guard
checks), `await storage.updateMixerSession(id, {status: "deposit_confirmed", ...})`,
the awaited dispatcher submission, and the final
`await storage.updateMixerSession(...)`. `reqStep` is the successful-path
handler cut at exactly these boundaries, so interleavings of two requests can
be analyzed; the per-phase effects reuse the very same update functions as
`confirmDepositHandler`.
-/

/-- Control point of one in-flight confirm-deposit request. -/
inductive ReqPhase where
  /-- Before the `getMixerSession` read. -/
  | start
  /-- Read done, guard passed; holds the session as read. -/
  | afterGuard (session : MixerSession)
  /-- Guard rejected the request (404/400). -/
  | rejected
  /-- First update written; the dispatcher will submit the payout next. -/
  | confirmed (session : MixerSession)
  /-- Payout submitted and final update written. -/
  | done
deriving DecidableEq, Repr

/-- One atomic step of a confirm-deposit request on the shared store, for the
path where verification succeeds (`v.valid`) and the payout submission
succeeds. The returned `Nat` counts payout transactions submitted by the
step. -/
def reqStep (id depositSignature : String) (v : VerifyResult) (payoutSig : String)
    (now : Nat) : ReqPhase → Store → ReqPhase × Store × Nat
  | .start, store =>
    if depositSignature == "" then (.rejected, store, 0)
    else
      match getMixerSession store id with
      | none => (.rejected, store, 0)
      | some session =>
        if session.status != "pending" then (.rejected, store, 0)
        else if supportedChain (if session.chain == "" then "solana" else session.chain)
                && v.valid then
          (.afterGuard session, store, 0)
        else (.rejected, store, 0)
  | .afterGuard session, store =>
    let newSender : Option String :=
      if session.senderAddress == "pending" && optTruthy v.actualSender then
        v.actualSender
      else none
    (.confirmed session,
      updateMixerSession store id (applyDepositConfirm depositSignature newSender now), 0)
  | .confirmed _, store =>
    (.done, updateMixerSession store id (applyPayoutSuccess payoutSig now), 1)
  | .rejected, store => (.rejected, store, 0)
  | .done, store => (.done, store, 0)

/-- Shared store plus the control points of two concurrent confirm-deposit
requests for the same session id, and the total number of payout
transactions submitted so far. -/
structure RaceState where
  store : Store
  phase1 : ReqPhase
  phase2 : ReqPhase
  submissions : Nat
deriving DecidableEq, Repr

/-- Run one step of request 1 (`true`) or request 2 (`false`). -/
def raceStep (id depositSignature : String) (v : VerifyResult) (payoutSig : String)
    (now : Nat) (st : RaceState) (which : Bool) : RaceState :=
  if which then
    let (p, s, n) := reqStep id depositSignature v payoutSig now st.phase1 st.store
    ⟨s, p, st.phase2, st.submissions + n⟩
  else
    let (p, s, n) := reqStep id depositSignature v payoutSig now st.phase2 st.store
    ⟨s, st.phase1, p, st.submissions + n⟩

/-- Execute a schedule (an interleaving) of the two requests from an initial
store. -/
def runRace (id depositSignature : String) (v : VerifyResult) (payoutSig : String)
    (now : Nat) (store : Store) (schedule : List Bool) : RaceState :=
  schedule.foldl (raceStep id depositSignature v payoutSig now) ⟨store, .start, .start, 0⟩

/-!  Invariant and helper predicates.  -/

/-- The C2 invariant for one row: `payoutSignature` is set exactly when the
status is `"completed"`. -/
def payoutSigInv (s : MixerSession) : Bool :=
  s.payoutSignature.isSome == (s.status == "completed")

/-- The C2 invariant over the whole store. -/
def storeInv (store : Store) : Bool :=
  store.all payoutSigInv

/-- Primary-key uniqueness of the session ids in the store. -/
abbrev uniqueIds (store : Store) : Prop :=
  (store.map (fun s => s.id)).Nodup

/-!  Concrete fixtures used by the witness theorems.  -/

/-- A pending Solana session. -/
def sessPending : MixerSession :=
  ⟨"s1", "solana", "alice", "bob", "1.0", "pending", none, none, 0, none, none⟩

/-- A completed session (both signatures set). -/
def sessCompleted : MixerSession :=
  ⟨"s2", "solana", "alice", "bob", "1.0", "completed", some "dsig", some "psig", 0, some 1, some 2⟩

/-- A pending ETH session whose sender is the `"pending"` sentinel. -/
def sessPendingEth : MixerSession :=
  ⟨"s3", "eth", "pending", "0xbob", "1.0", "pending", none, none, 0, none, none⟩

/-- A small store with one pending and one completed session. -/
def demoStore : Store := [sessPending, sessCompleted, sessPendingEth]

/-- An environment with all three pools configured and permissive validators. -/
def demoEnv : ChainEnv :=
  ⟨some "POOL", some "0xpool", some "0xbpool", fun _ => true, fun _ => true⟩

/-!  Helper lemmas about the store operations.  -/

theorem applyDepositConfirm_id (sig : String) (ns : Option String) (now : Nat)
    (s : MixerSession) : (applyDepositConfirm sig ns now s).id = s.id := by
  cases ns <;> rfl

theorem applyDepositConfirm_payoutSignature (sig : String) (ns : Option String) (now : Nat)
    (s : MixerSession) :
    (applyDepositConfirm sig ns now s).payoutSignature = s.payoutSignature := by
  cases ns <;> rfl

theorem applyDepositConfirm_depositSignature (sig : String) (ns : Option String) (now : Nat)
    (s : MixerSession) :
    (applyDepositConfirm sig ns now s).depositSignature = some sig := by
  cases ns <;> rfl

theorem getMixerSession_updateMixerSession (store : Store) (id : String)
    (f : MixerSession → MixerSession) (hf : ∀ s, (f s).id = s.id)
    (sess : MixerSession) (h : getMixerSession store id = some sess) :
    getMixerSession (updateMixerSession store id f) id = some (f sess) := by
  induction store with
  | nil => simp [getMixerSession] at h
  | cons x rest ih =>
    simp only [getMixerSession, updateMixerSession, List.map_cons, List.find?_cons] at h ⊢
    cases hx : (x.id == id) with
    | true =>
      rw [hx] at h
      simp only [Option.some.injEq] at h
      subst h
      simp [hf, hx]
    | false =>
      rw [hx] at h
      simp only [] at h
      simp only [Bool.false_eq_true, if_false, hf, hx]
      exact ih h

theorem getMixerSession_unique (store : Store) (id : String) (sess : MixerSession)
    (h : getMixerSession store id = some sess) (hu : uniqueIds store) :
    ∀ s ∈ store, (s.id == id) = true → s = sess := by
  induction store with
  | nil => intro s hs; simp at hs
  | cons x rest ih =>
    have hu' := hu
    simp only [uniqueIds, List.map_cons, List.nodup_cons] at hu'
    intro s hs hsid
    simp only [getMixerSession, List.find?_cons] at h
    cases hx : (x.id == id) with
    | true =>
      rw [hx] at h
      simp only [Option.some.injEq] at h
      subst h
      rcases List.mem_cons.mp hs with rfl | hmem
      · rfl
      · exfalso
        apply hu'.1
        have hxid : x.id = id := by simpa using hx
        have hsid' : s.id = id := by simpa using hsid
        rw [hxid, ← hsid']
        exact List.mem_map_of_mem (fun t => t.id) hmem
    | false =>
      rw [hx] at h
      simp only [] at h
      rcases List.mem_cons.mp hs with rfl | hmem
      · rw [hsid] at hx; cases hx
      · exact ih h hu'.2 s hmem hsid

theorem storeInv_mem (store : Store) (h : storeInv store = true) :
    ∀ s ∈ store, payoutSigInv s = true := by
  simpa [storeInv, List.all_eq_true] using h

theorem storeInv_updateMixerSession (store : Store) (id : String)
    (f : MixerSession → MixerSession) (h : storeInv store = true)
    (hm : ∀ s ∈ store, (s.id == id) = true → payoutSigInv (f s) = true) :
    storeInv (updateMixerSession store id f) = true := by
  simp only [storeInv, updateMixerSession, List.all_eq_true] at h ⊢
  intro s hs
  rcases List.mem_map.mp hs with ⟨t, ht, rfl⟩
  by_cases hx : (t.id == id) = true
  · simpa [hx] using hm t ht hx
  · simp only [hx, if_false, Bool.false_eq_true]
    exact h t ht

theorem storeInv_createMixerSession (store : Store) (s : MixerSession)
    (h : storeInv store = true) (hs : payoutSigInv s = true) :
    storeInv (createMixerSession store s) = true := by
  simp only [storeInv, createMixerSession, List.all_append, List.all_cons, List.all_nil,
    Bool.and_true, Bool.and_eq_true] at h ⊢
  exact ⟨h, hs⟩

theorem payoutSigInv_applyPayoutSuccess (sig : String) (now : Nat) (s : MixerSession) :
    payoutSigInv (applyPayoutSuccess sig now s) = true := by
  simp [payoutSigInv, applyPayoutSuccess]

theorem payoutSigInv_applyPayoutFailed_applyDepositConfirm (sig : String)
    (ns : Option String) (now : Nat) (s : MixerSession)
    (h : s.payoutSignature = none) :
    payoutSigInv (applyPayoutFailed (applyDepositConfirm sig ns now s)) = true := by
  cases ns <;> simp [payoutSigInv, applyPayoutFailed, applyDepositConfirm, h]

theorem payoutSigInv_pending (s : MixerSession) (h : payoutSigInv s = true)
    (hst : s.status = "pending") : s.payoutSignature = none := by
  simp only [payoutSigInv, hst] at h
  have : s.payoutSignature.isSome = false := by simpa using h
  exact Option.eq_none_of_isNone (by simpa [Option.isNone] using this)

theorem getMixerSession_mem (store : Store) (id : String) (sess : MixerSession)
    (h : getMixerSession store id = some sess) :
    sess ∈ store ∧ (sess.id == id) = true := by
  have h' : List.find? (fun s => s.id == id) store = some sess := h
  refine ⟨List.mem_of_find?_eq_some h', ?_⟩
  simpa using List.find?_some h'

theorem updateMixerSession_comp (store : Store) (id : String)
    (g h : MixerSession → MixerSession) (hg : ∀ s, (g s).id = s.id) :
    updateMixerSession (updateMixerSession store id g) id h =
      updateMixerSession store id (fun s => h (g s)) := by
  simp only [updateMixerSession, List.map_map]
  refine List.map_congr_left (fun s _ => ?_)
  by_cases hs : (s.id == id) = true
  · simp [Function.comp, hs, hg]
  · simp [Function.comp, hs]

/-!  Claim theorems.  -/

theorem confirmDepositHandler_rejects_non_pending
    (store : Store) (id sig : String) (v : VerifyResult) (payout : Except String String)
    (now : Nat) (sess : MixerSession)
    (hfind : getMixerSession store id = some sess)
    (hstat : sess.status ≠ "pending") (hsig : sig ≠ "") :
    confirmDepositHandler store id sig v payout now =
      (⟨400, some "Session not in pending state"⟩, store) := by
  have h1 : (sig == "") = false := by simpa using hsig
  have h2 : (sess.status != "pending") = true := by simpa using hstat
  simp [confirmDepositHandler, h1, hfind, h2]

/-- C1: a confirm-deposit call (carrying a deposit signature) on a session
whose status is not `pending` is rejected with HTTP 400 and the error
"Session not in pending state", and the store — in particular every field of
the stored session — is left unchanged. -/
theorem confirm_deposit_non_pending_rejected
    (store : Store) (id sig : String) (v : VerifyResult) (payout : Except String String)
    (now : Nat) (sess : MixerSession)
    (hfind : getMixerSession store id = some sess)
    (hstat : sess.status ≠ "pending") (hsig : sig ≠ "") :
    confirmDepositHandler store id sig v payout now =
      (⟨400, some "Session not in pending state"⟩, store) :=
  confirmDepositHandler_rejects_non_pending store id sig v payout now sess hfind hstat hsig

theorem confirm_deposit_non_pending_rejected_witness :
    getMixerSession demoStore "s2" = some sessCompleted ∧
    sessCompleted.status ≠ "pending" ∧
    confirmDepositHandler demoStore "s2" "sig" ⟨true, none, none⟩ (.ok "pay") 5 =
      (⟨400, some "Session not in pending state"⟩, demoStore) :=
  ⟨by decide, by decide,
    confirm_deposit_non_pending_rejected demoStore "s2" "sig" ⟨true, none, none⟩ (.ok "pay") 5
      sessCompleted (by decide) (by decide) (by decide)⟩

/-- C3: whenever the deposited amount minus the fixed network fee is ≤ 0
(in native integer units: 5000 lamports for Solana, `parseEther("0.001")` wei
for ETH, `parseEther("0.0005")` wei for BNB), the dispatcher never produces a
submitted transfer, and — when the pool wallet is configured — fails with the
amount-too-small error. -/
theorem dispatcher_fails_closed_on_small_amount :
    (∀ (hasPool : Bool) (a : ℚ), lamportsOfAmount a - NETWORK_FEE_LAMPORTS ≤ 0 →
      (∀ p, sendFromPool hasPool a ≠ .ok p) ∧
      (hasPool = true →
        sendFromPool hasPool a = .error "Amount too small to cover network fee")) ∧
    (∀ (hasPool : Bool) (a : ℚ), parseEtherQ a - parseEtherQ (1 / 1000) ≤ 0 →
      (∀ p, sendFromPoolETH hasPool a ≠ .ok p) ∧
      (hasPool = true →
        sendFromPoolETH hasPool a = .error "Amount too small to cover network fee")) ∧
    (∀ (hasPool : Bool) (a : ℚ), parseEtherQ a - parseEtherQ (5 / 10000) ≤ 0 →
      (∀ p, sendFromPoolBNB hasPool a ≠ .ok p) ∧
      (hasPool = true →
        sendFromPoolBNB hasPool a = .error "Amount too small to cover network fee")) := by
  refine ⟨?_, ?_, ?_⟩ <;> intro hasPool a hle <;> cases hasPool
  case _ =>
    refine ⟨fun p h => ?_, fun h => by cases h⟩
    simp [sendFromPool] at h
  case _ =>
    have he : sendFromPool true a = .error "Amount too small to cover network fee" := by
      unfold sendFromPool
      rw [show (!true) = false from rfl, if_neg (by simp), if_pos hle]
    exact ⟨fun p h => (by rw [he] at h; cases h), fun _ => he⟩
  case _ =>
    refine ⟨fun p h => ?_, fun h => by cases h⟩
    simp [sendFromPoolETH] at h
  case _ =>
    have he : sendFromPoolETH true a = .error "Amount too small to cover network fee" := by
      unfold sendFromPoolETH
      rw [show (!true) = false from rfl, if_neg (by simp), if_pos hle]
    exact ⟨fun p h => (by rw [he] at h; cases h), fun _ => he⟩
  case _ =>
    refine ⟨fun p h => ?_, fun h => by cases h⟩
    simp [sendFromPoolBNB] at h
  case _ =>
    have he : sendFromPoolBNB true a = .error "Amount too small to cover network fee" := by
      unfold sendFromPoolBNB
      rw [show (!true) = false from rfl, if_neg (by simp), if_pos hle]
    exact ⟨fun p h => (by rw [he] at h; cases h), fun _ => he⟩

theorem dispatcher_fails_closed_on_small_amount_witness :
    lamportsOfAmount (4 / 1000000) - NETWORK_FEE_LAMPORTS ≤ 0 ∧
    sendFromPool true (4 / 1000000) = .error "Amount too small to cover network fee" :=
  ⟨by decide,
    (dispatcher_fails_closed_on_small_amount.1 true (4 / 1000000) (by decide)).2 rfl⟩

/-- C4: every successful payout transfers exactly the deposited amount minus
the fixed chain-specific network fee, computed in native integer units, and
those fees are 5000 lamports, `0.001` ETH = `10^15` wei, and `0.0005` BNB =
`5·10^14` wei. -/
theorem payout_equals_deposit_minus_fee :
    NETWORK_FEE_LAMPORTS = 5000 ∧
    parseEtherQ (1 / 1000) = 1000000000000000 ∧
    parseEtherQ (5 / 10000) = 500000000000000 ∧
    (∀ (hasPool : Bool) (a : ℚ) (p : Int), sendFromPool hasPool a = .ok p →
      p = lamportsOfAmount a - NETWORK_FEE_LAMPORTS) ∧
    (∀ (hasPool : Bool) (a : ℚ) (p : Int), sendFromPoolETH hasPool a = .ok p →
      p = parseEtherQ a - parseEtherQ (1 / 1000)) ∧
    (∀ (hasPool : Bool) (a : ℚ) (p : Int), sendFromPoolBNB hasPool a = .ok p →
      p = parseEtherQ a - parseEtherQ (5 / 10000)) := by
  refine ⟨by decide, by decide, by decide, ?_, ?_, ?_⟩ <;>
    intro hasPool a p h <;> cases hasPool
  case _ => simp [sendFromPool] at h
  case _ =>
    unfold sendFromPool at h
    rw [show (!true) = false from rfl, if_neg (by simp)] at h
    by_cases hle : lamportsOfAmount a - NETWORK_FEE_LAMPORTS ≤ 0
    · rw [if_pos hle] at h; cases h
    · rw [if_neg hle] at h; exact (Except.ok.inj h).symm
  case _ => simp [sendFromPoolETH] at h
  case _ =>
    unfold sendFromPoolETH at h
    rw [show (!true) = false from rfl, if_neg (by simp)] at h
    by_cases hle : parseEtherQ a - parseEtherQ (1 / 1000) ≤ 0
    · rw [if_pos hle] at h; cases h
    · rw [if_neg hle] at h; exact (Except.ok.inj h).symm
  case _ => simp [sendFromPoolBNB] at h
  case _ =>
    unfold sendFromPoolBNB at h
    rw [show (!true) = false from rfl, if_neg (by simp)] at h
    by_cases hle : parseEtherQ a - parseEtherQ (5 / 10000) ≤ 0
    · rw [if_pos hle] at h; cases h
    · rw [if_neg hle] at h; exact (Except.ok.inj h).symm

theorem payout_equals_deposit_minus_fee_witness :
    sendFromPool true 1 = .ok 999995000 ∧
    (999995000 : Int) = lamportsOfAmount 1 - NETWORK_FEE_LAMPORTS :=
  ⟨by rfl, payout_equals_deposit_minus_fee.2.2.2.1 true 1 999995000 (by rfl)⟩

/-- C5: when the guard passes, verification succeeds, and the payout dispatch
throws, the response is HTTP 500 and the stored session ends with status
`payout_failed` (in particular not `pending`), `depositSignature` set to the
submitted signature, and `payoutSignature` unset. -/
theorem confirm_deposit_payout_failure_marks_payout_failed
    (store : Store) (id sig errMsg : String) (v : VerifyResult) (now : Nat)
    (sess : MixerSession)
    (hfind : getMixerSession store id = some sess)
    (hpend : sess.status = "pending")
    (hsig : sig ≠ "")
    (hsupp : supportedChain (if sess.chain == "" then "solana" else sess.chain) = true)
    (hvalid : v.valid = true)
    (hnosig : sess.payoutSignature = none) :
    (confirmDepositHandler store id sig v (.error errMsg) now).1.code = 500 ∧
    ∃ s', getMixerSession (confirmDepositHandler store id sig v (.error errMsg) now).2 id
            = some s' ∧
      s'.status = "payout_failed" ∧
      s'.depositSignature = some sig ∧
      s'.payoutSignature = none ∧
      s'.status ≠ "pending" := by
  have h1 : (sig == "") = false := by simpa using hsig
  have h2 : (sess.status != "pending") = false := by simp [hpend]
  have heq : confirmDepositHandler store id sig v (.error errMsg) now =
      (⟨500, some "Payout failed"⟩,
        updateMixerSession
          (updateMixerSession store id
            (applyDepositConfirm sig
              (if sess.senderAddress == "pending" && optTruthy v.actualSender then
                v.actualSender
              else none) now))
          id applyPayoutFailed) := by
    simp only [confirmDepositHandler, h1, Bool.false_eq_true, if_false, hfind, h2,
      hsupp, if_true, hvalid]
  rw [heq]
  refine ⟨rfl, ?_⟩
  have H1 := getMixerSession_updateMixerSession store id
    (applyDepositConfirm sig
      (if sess.senderAddress == "pending" && optTruthy v.actualSender then
        v.actualSender
      else none) now)
    (fun s => applyDepositConfirm_id _ _ _ s) sess hfind
  have H2 := getMixerSession_updateMixerSession _ id applyPayoutFailed
    (fun s => rfl) _ H1
  refine ⟨_, H2, rfl, ?_, ?_, by simp [applyPayoutFailed]⟩
  · simp [applyPayoutFailed, applyDepositConfirm_depositSignature]
  · simp [applyPayoutFailed, applyDepositConfirm_payoutSignature, hnosig]

theorem confirm_deposit_payout_failure_marks_payout_failed_witness :
    getMixerSession demoStore "s1" = some sessPending ∧
    ((confirmDepositHandler demoStore "s1" "dsig" ⟨true, none, none⟩
        (.error "boom") 7).1.code = 500 ∧
      ∃ s', getMixerSession (confirmDepositHandler demoStore "s1" "dsig" ⟨true, none, none⟩
              (.error "boom") 7).2 "s1" = some s' ∧
        s'.status = "payout_failed" ∧
        s'.depositSignature = some "dsig" ∧
        s'.payoutSignature = none ∧
        s'.status ≠ "pending") :=
  ⟨by decide,
    confirm_deposit_payout_failure_marks_payout_failed demoStore "s1" "dsig" "boom"
      ⟨true, none, none⟩ 7 sessPending (by decide) rfl (by decide) (by decide) rfl rfl⟩

theorem confirmDepositHandler_store_cases (store : Store) (id sig : String)
    (v : VerifyResult) (payout : Except String String) (now : Nat) :
    (confirmDepositHandler store id sig v payout now).2 = store ∨
    ∃ sess ns, getMixerSession store id = some sess ∧ sess.status = "pending" ∧
      ((∃ psig, payout = .ok psig ∧
         (confirmDepositHandler store id sig v payout now).2 =
           updateMixerSession store id
             (fun s => applyPayoutSuccess psig now (applyDepositConfirm sig ns now s))) ∨
       (∃ msg, payout = .error msg ∧
         (confirmDepositHandler store id sig v payout now).2 =
           updateMixerSession store id
             (fun s => applyPayoutFailed (applyDepositConfirm sig ns now s)))) := by
  cases hsig0 : (sig == "") with
  | true =>
    left
    simp only [confirmDepositHandler, hsig0, if_true]
  | false =>
    cases hfind : getMixerSession store id with
    | none =>
      left
      simp only [confirmDepositHandler, hsig0, Bool.false_eq_true, if_false, hfind]
    | some sess =>
      cases hstat : (sess.status != "pending") with
      | true =>
        left
        simp only [confirmDepositHandler, hsig0, Bool.false_eq_true, if_false, hfind,
          hstat, if_true]
      | false =>
        cases hsupp : supportedChain (if sess.chain == "" then "solana" else sess.chain) with
        | false =>
          left
          simp only [confirmDepositHandler, hsig0, Bool.false_eq_true, if_false, hfind,
            hstat, hsupp]
        | true =>
          cases hvalid : v.valid with
          | false =>
            left
            simp only [confirmDepositHandler, hsig0, Bool.false_eq_true, if_false, hfind,
              hstat, hsupp, if_true, hvalid]
          | true =>
            right
            refine ⟨sess,
              (if sess.senderAddress == "pending" && optTruthy v.actualSender then
                v.actualSender
              else none), rfl, by simpa using hstat, ?_⟩
            cases payout with
            | ok psig =>
              left
              refine ⟨psig, rfl, ?_⟩
              simp only [confirmDepositHandler, hsig0, Bool.false_eq_true, if_false, hfind,
                hstat, hsupp, if_true, hvalid]
              exact updateMixerSession_comp store id _ _
                (fun s => applyDepositConfirm_id _ _ _ s)
            | error msg =>
              right
              refine ⟨msg, rfl, ?_⟩
              simp only [confirmDepositHandler, hsig0, Bool.false_eq_true, if_false, hfind,
                hstat, hsupp, if_true, hvalid]
              exact updateMixerSession_comp store id _ _
                (fun s => applyDepositConfirm_id _ _ _ s)

/-- C2: `payoutSignature` is set exactly when the status is `completed`, as an
invariant preserved by every operation of the core: session creation (in every
outcome), confirm-deposit (in every outcome of verification and payout,
assuming unique session ids), and the two read endpoints (which leave the
store untouched). -/
theorem payout_signature_iff_completed_invariant :
    (∀ (env : ChainEnv) (store : Store) (newId : String) (now : Nat)
        (sa ra am : String) (ch : Option String), storeInv store = true →
      storeInv (createSessionHandler env store newId now sa ra am ch).2 = true) ∧
    (∀ (store : Store) (id sig : String) (v : VerifyResult)
        (payout : Except String String) (now : Nat),
      storeInv store = true → uniqueIds store →
      storeInv (confirmDepositHandler store id sig v payout now).2 = true) ∧
    (∀ (store : Store) (id : String), (getSessionHandler store id).2 = store) ∧
    (∀ (store : Store) (address : String), (listSessionsHandler store address).2 = store) := by
  refine ⟨?_, ?_, ?_, ?_⟩
  · intro env store newId now sa ra am ch h
    unfold createSessionHandler
    repeat' split
    all_goals first
      | exact h
      | exact storeInv_createMixerSession _ _ h (by rfl)
  · intro store id sig v payout now h hu
    rcases confirmDepositHandler_store_cases store id sig v payout now with
      heq | ⟨sess, ns, hfind, hpend, ⟨psig, _, heq⟩ | ⟨msg, _, heq⟩⟩
    · rw [heq]; exact h
    · rw [heq]
      exact storeInv_updateMixerSession _ _ _ h
        (fun s _ _ => payoutSigInv_applyPayoutSuccess _ _ _)
    · rw [heq]
      refine storeInv_updateMixerSession _ _ _ h (fun s hs hsid => ?_)
      have hseq := getMixerSession_unique store id sess hfind hu s hs hsid
      subst hseq
      exact payoutSigInv_applyPayoutFailed_applyDepositConfirm _ _ _ _
        (payoutSigInv_pending s (storeInv_mem store h s hs) hpend)
  · intro store id
    cases hfind : getMixerSession store id <;> simp [getSessionHandler, hfind]
  · intro store address
    by_cases ha : (address == "") = true <;> simp [listSessionsHandler, ha]

theorem payout_signature_iff_completed_invariant_witness :
    storeInv demoStore = true ∧ uniqueIds demoStore ∧
    storeInv ((confirmDepositHandler demoStore "s1" "dsig" ⟨true, none, none⟩
      (.ok "psig") 7).2) = true :=
  ⟨by decide, by decide,
    payout_signature_iff_completed_invariant.2.1 demoStore "s1" "dsig" ⟨true, none, none⟩
      (.ok "psig") 7 (by decide) (by decide)⟩

/-- C10: both read endpoints project a stored session to exactly the eight
fields of `SessionView` (`sessionId`, `status`, `amount`, `chain`,
`recipientAddress`, `depositSignature`, `payoutSignature`, `createdAt`); the
projection does not depend on `senderAddress`, `depositConfirmedAt` or
`payoutSentAt`, so those fields are never exposed. -/
theorem session_read_projects_exact_fields :
    (∀ (store : Store) (id : String) (s : MixerSession),
      getMixerSession store id = some s →
      getSessionHandler store id = ((200, some (sessionView s)), store)) ∧
    (∀ (store : Store) (address : String), address ≠ "" →
      listSessionsHandler store address =
        ((200, (getMixerSessionsByAddress store address).map sessionView), store)) ∧
    (∀ (s : MixerSession) (sa : String) (d p : Option Nat),
      sessionView { s with senderAddress := sa, depositConfirmedAt := d, payoutSentAt := p }
        = sessionView s) ∧
    (∀ s : MixerSession, sessionView s =
      ⟨s.id, s.status, s.amount, s.chain, s.recipientAddress,
        s.depositSignature, s.payoutSignature, s.createdAt⟩) := by
  refine ⟨?_, ?_, ?_, ?_⟩
  · intro store id s h
    simp [getSessionHandler, h]
  · intro store address h
    have h' : (address == "") = false := by simpa using h
    simp [listSessionsHandler, h']
  · intro s sa d p
    rfl
  · intro s
    rfl

theorem session_read_projects_exact_fields_witness :
    getMixerSession demoStore "s2" = some sessCompleted ∧
    getSessionHandler demoStore "s2" = ((200, some (sessionView sessCompleted)), demoStore) :=
  ⟨by decide,
    session_read_projects_exact_fields.1 demoStore "s2" sessCompleted (by decide)⟩

/-- C7 (divergence evidence): session creation performs no positive-decimal
validation of `amount` — `insertMixerSessionSchema` is imported but never
applied in the route. A create request with the string amount `"0"` passes
the truthiness check (`"0"` is truthy in JS), is answered with HTTP 201, and
a session with `amount = "0"` is persisted, where the spec requires a 400
validation error and no persisted session. -/
theorem create_amount_zero_persists :
    createSessionHandler demoEnv [] "n1" 3 "alice" "bob" "0" none =
      (⟨201, none⟩,
        [⟨"n1", "solana", "alice", "bob", "0", "pending", none, none, 3, none, none⟩]) := by
  decide

/-- C6 counterexample: the claim asserts the `"pending"` sentinel exception
for every chain, but the Solana verifier has no such case. With expected
sender `"pending"` and an on-chain origin `"ActualSender"`, `verifyTransaction`
rejects with a sender mismatch instead of accepting and reporting the actual
sender. -/
theorem solana_pending_sentinel_rejected :
    verifyTransaction
      (some ⟨["ActualSender", "Pool"], false, [2000000000], [999995000], 5000⟩)
      "pending" "Pool" 1 =
      ⟨false, some "Sender address mismatch", none⟩ := by
  decide

/-- C6 amended: the sender-mismatch rule with the `"pending"`-sentinel
exception and orchestrator backfill holds for the ETH/BNB verifier; the
Solana verifier instead enforces strict sender equality with no sentinel
exception and never reports an actual sender (so no Solana session is ever
backfilled). -/
theorem sender_mismatch_and_pending_sentinel :
    (∀ (tx : EthTx) (receipt : EthReceipt) (fromAddress toAddress : String) (amount : ℚ),
      fromAddress ≠ "pending" → receipt.status ≠ 0 →
      jsToLowerCase tx.fromAddr ≠ jsToLowerCase fromAddress →
      verifyEthTransaction (some tx) (some receipt) fromAddress toAddress amount =
        ⟨false, some "Sender address mismatch", none⟩) ∧
    (∀ (tx : EthTx) (receipt : EthReceipt) (toAddress : String) (amount : ℚ),
      receipt.status ≠ 0 →
      (tx.toAddr.map jsToLowerCase) = some (jsToLowerCase toAddress) →
      (if parseEtherQ amount < tx.value then tx.value - parseEtherQ amount
       else parseEtherQ amount - tx.value) ≤ parseEtherQ (1 / 10000) →
      verifyEthTransaction (some tx) (some receipt) "pending" toAddress amount =
        ⟨true, none, some tx.fromAddr⟩) ∧
    (∀ (tx : SolTx) (fromAddress toAddress : String) (amount : ℚ),
      tx.err = false → tx.accountKeys.get? 0 ≠ some fromAddress →
      verifyTransaction (some tx) fromAddress toAddress amount =
        ⟨false, some "Sender address mismatch", none⟩) ∧
    (∀ (tx? : Option SolTx) (fromAddress toAddress : String) (amount : ℚ),
      (verifyTransaction tx? fromAddress toAddress amount).actualSender = none) ∧
    (∀ (store : Store) (id sig psig : String) (v : VerifyResult) (now : Nat)
        (sess : MixerSession) (a : String),
      getMixerSession store id = some sess → sess.status = "pending" → sig ≠ "" →
      supportedChain (if sess.chain == "" then "solana" else sess.chain) = true →
      v.valid = true → sess.senderAddress = "pending" → v.actualSender = some a →
      a ≠ "" →
      ∃ s', getMixerSession (confirmDepositHandler store id sig v (.ok psig) now).2 id
              = some s' ∧ s'.senderAddress = a) := by
  refine ⟨?_, ?_, ?_, ?_, ?_⟩
  · intro tx receipt fromAddress toAddress amount hfa hst hmm
    simp only [verifyEthTransaction]
    rw [if_neg (by simpa using hst), if_pos (by simp [bne_iff_ne, hfa, hmm])]
  · intro tx receipt toAddress amount hst hrec hdiff
    simp only [verifyEthTransaction]
    rw [if_neg (by simpa using hst), if_neg (by simp), if_neg (by simp [hrec]),
      if_neg (not_lt.mpr hdiff)]
  · intro tx fromAddress toAddress amount herr hmm
    simp only [verifyTransaction]
    rw [if_neg (by simp [herr]), if_pos (by simpa [bne_iff_ne] using hmm)]
  · intro tx? fromAddress toAddress amount
    cases tx? with
    | none => rfl
    | some tx =>
      simp only [verifyTransaction]
      repeat' split
      all_goals rfl
  · intro store id sig psig v now sess a hfind hpend hsig hsupp hvalid hsender hact ha
    have h1 : (sig == "") = false := by simpa using hsig
    have h2 : (sess.status != "pending") = false := by simp [hpend]
    have heq : confirmDepositHandler store id sig v (.ok psig) now =
        (⟨200, none⟩,
          updateMixerSession
            (updateMixerSession store id
              (applyDepositConfirm sig
                (if sess.senderAddress == "pending" && optTruthy v.actualSender then
                  v.actualSender
                else none) now))
            id (applyPayoutSuccess psig now)) := by
      simp only [confirmDepositHandler, h1, Bool.false_eq_true, if_false, hfind, h2,
        hsupp, if_true, hvalid]
    rw [heq]
    have hNS : (if sess.senderAddress == "pending" && optTruthy v.actualSender then
        v.actualSender
      else none) = some a := by
      simp [hsender, hact, optTruthy, ha]
    have H1 := getMixerSession_updateMixerSession store id
      (applyDepositConfirm sig
        (if sess.senderAddress == "pending" && optTruthy v.actualSender then
          v.actualSender
        else none) now)
      (fun s => applyDepositConfirm_id _ _ _ s) sess hfind
    have H2 := getMixerSession_updateMixerSession _ id (applyPayoutSuccess psig now)
      (fun s => rfl) _ H1
    refine ⟨_, H2, ?_⟩
    rw [hNS]
    rfl

theorem sender_mismatch_and_pending_sentinel_witness :
    verifyEthTransaction (some ⟨"0xAA", some "0xPool", 1000000000000000000⟩) (some ⟨1⟩)
      "0xBB" "0xPool" 1 = ⟨false, some "Sender address mismatch", none⟩ ∧
    verifyEthTransaction (some ⟨"0xAA", some "0xPool", 1000000000000000000⟩) (some ⟨1⟩)
      "pending" "0xPool" 1 = ⟨true, none, some "0xAA"⟩ ∧
    verifyTransaction (some ⟨["Alice", "Pool"], false, [2000000000], [999995000], 5000⟩)
      "pending" "Pool" 1 = ⟨false, some "Sender address mismatch", none⟩ ∧
    (∃ s', getMixerSession (confirmDepositHandler demoStore "s3" "dsig"
        ⟨true, none, some "0xAA"⟩ (.ok "psig") 7).2 "s3" = some s' ∧
      s'.senderAddress = "0xAA") :=
  ⟨sender_mismatch_and_pending_sentinel.1 ⟨"0xAA", some "0xPool", 1000000000000000000⟩ ⟨1⟩
      "0xBB" "0xPool" 1 (by decide) (by decide) (by decide),
    sender_mismatch_and_pending_sentinel.2.1 ⟨"0xAA", some "0xPool", 1000000000000000000⟩ ⟨1⟩
      "0xPool" 1 (by decide) (by decide) (by decide),
    sender_mismatch_and_pending_sentinel.2.2.1
      ⟨["Alice", "Pool"], false, [2000000000], [999995000], 5000⟩ "pending" "Pool" 1
      rfl (by decide),
    sender_mismatch_and_pending_sentinel.2.2.2.2 demoStore "s3" "dsig" "psig"
      ⟨true, none, some "0xAA"⟩ 7 sessPendingEth "0xAA"
      (by decide) rfl (by decide) (by decide) rfl rfl rfl (by decide)⟩

/-- C8 counterexample: the claim asserts a tolerance on the order of `10^-6`
of one native unit for every chain, but the ETH/BNB verifier accepts a
transferred value that differs from the expected amount by
`parseEther("0.0001") = 10^14` wei — `10^-4` of one ETH, two orders of
magnitude beyond the claimed tolerance. -/
theorem eth_tolerance_accepts_1e4_of_unit :
    verifyEthTransaction
      (some ⟨"0xAA", some "0xPool", 1000000000000000000 + 100000000000000⟩)
      (some ⟨1⟩) "0xAA" "0xPool" 1 = ⟨true, none, some "0xAA"⟩ ∧
    parseEtherQ (1 / 10000) = 100000000000000 ∧
    ((100000000000000 : ℚ) / 1000000000000000000 = 1 / 10000) := by
  refine ⟨by decide, by decide, by decide⟩

/-- C8 amended: once the earlier checks pass, acceptance is decided by
`|transferred − expected| ≤ tolerance`, rejected as an amount mismatch
otherwise — but the tolerance is chain-dependent: 1000 lamports
(`10^-6` SOL) on Solana, and `parseEther("0.0001") = 10^14` wei
(`10^-4` of a unit) on ETH/BNB, not `10^-6` for every chain. -/
theorem amount_tolerance_per_chain :
    (∀ (tx : SolTx) (fromAddress toAddress : String) (amount : ℚ),
      tx.err = false →
      tx.accountKeys.get? 0 = some fromAddress →
      tx.accountKeys.get? 1 = some toAddress →
      verifyTransaction (some tx) fromAddress toAddress amount =
        (if 1000 < ((tx.preBalances.getD 0 0) - (tx.postBalances.getD 0 0) - tx.fee
              - lamportsOfAmount amount).natAbs
         then ⟨false, some "Amount mismatch", none⟩
         else ⟨true, none, none⟩)) ∧
    ((1000 : ℚ) / 1000000000 = 1 / 1000000) ∧
    (∀ (tx : EthTx) (receipt : EthReceipt) (fromAddress toAddress : String) (amount : ℚ),
      receipt.status ≠ 0 →
      (fromAddress != "pending"
        && jsToLowerCase tx.fromAddr != jsToLowerCase fromAddress) = false →
      (tx.toAddr.map jsToLowerCase) = some (jsToLowerCase toAddress) →
      verifyEthTransaction (some tx) (some receipt) fromAddress toAddress amount =
        (if parseEtherQ (1 / 10000) <
              (if parseEtherQ amount < tx.value then tx.value - parseEtherQ amount
               else parseEtherQ amount - tx.value)
         then ⟨false, some "Amount mismatch", some tx.fromAddr⟩
         else ⟨true, none, some tx.fromAddr⟩)) ∧
    (parseEtherQ (1 / 10000) = 100000000000000) ∧
    ((100000000000000 : ℚ) / 1000000000000000000 = 1 / 10000) := by
  refine ⟨?_, by decide, ?_, by decide, by decide⟩
  · intro tx fromAddress toAddress amount herr hfrom hto
    have hfrom' : tx.accountKeys[0]? = some fromAddress := by simpa using hfrom
    have hto' : tx.accountKeys[1]? = some toAddress := by simpa using hto
    simp only [verifyTransaction]
    rw [if_neg (by simp [herr]), if_neg (by simp [hfrom']), if_neg (by simp [hto'])]
  · intro tx receipt fromAddress toAddress amount hst hsend hrec
    simp only [verifyEthTransaction]
    rw [if_neg (by simpa using hst), if_neg (by simp [hsend]), if_neg (by simp [hrec])]

theorem amount_tolerance_per_chain_witness :
    verifyTransaction (some ⟨["Alice", "Pool"], false, [2000000000], [999993999], 5000⟩)
      "Alice" "Pool" 1 = ⟨false, some "Amount mismatch", none⟩ ∧
    verifyTransaction (some ⟨["Alice", "Pool"], false, [2000000000], [999994000], 5000⟩)
      "Alice" "Pool" 1 = ⟨true, none, none⟩ := by
  have h1 := amount_tolerance_per_chain.1
    ⟨["Alice", "Pool"], false, [2000000000], [999993999], 5000⟩ "Alice" "Pool" 1
    rfl (by decide) (by decide)
  have h2 := amount_tolerance_per_chain.1
    ⟨["Alice", "Pool"], false, [2000000000], [999994000], 5000⟩ "Alice" "Pool" 1
    rfl (by decide) (by decide)
  rw [h1, h2]
  refine ⟨by decide, by decide⟩

/-- C9 counterexample: the pending-only guard is a plain read-then-check in
the request handler and the storage update is unconditional, so it is not an
atomic storage-layer compare-and-swap. In the interleaving where both
concurrent confirm-deposit requests read the session before either writes
(schedule: read₁, read₂, write₁, payout₁, write₂, payout₂), both pass the
guard, both complete, and two payout transactions are submitted for the same
session. -/
theorem concurrent_confirm_requests_double_payout :
    (runRace "s1" "dsig" ⟨true, none, none⟩ "psig" 7 demoStore
        [true, false, true, true, false, false]).phase1 = .done ∧
    (runRace "s1" "dsig" ⟨true, none, none⟩ "psig" 7 demoStore
        [true, false, true, true, false, false]).phase2 = .done ∧
    (runRace "s1" "dsig" ⟨true, none, none⟩ "psig" 7 demoStore
        [true, false, true, true, false, false]).submissions = 2 := by
  refine ⟨by decide, by decide, by decide⟩

/-- C9 amended: the idempotency guard is enforced by a non-atomic
read-then-check in the handler over an unconditional storage update, not by a
storage-layer compare-and-swap. It does block duplicates that are serialized:
after one confirm-deposit completes (whatever its payout outcome), a second
call on the same session is rejected with the invalid-state error and mutates
nothing; only overlapping requests can double-process. -/
theorem pending_guard_blocks_second_serialized_confirm
    (store : Store) (id sig1 sig2 : String) (v w : VerifyResult)
    (payout1 payout2 : Except String String) (now later : Nat) (sess : MixerSession)
    (hfind : getMixerSession store id = some sess)
    (hpend : sess.status = "pending") (hsig1 : sig1 ≠ "") (hsig2 : sig2 ≠ "")
    (hsupp : supportedChain (if sess.chain == "" then "solana" else sess.chain) = true)
    (hvalid : v.valid = true) :
    confirmDepositHandler (confirmDepositHandler store id sig1 v payout1 now).2
        id sig2 w payout2 later =
      (⟨400, some "Session not in pending state"⟩,
        (confirmDepositHandler store id sig1 v payout1 now).2) := by
  have h1 : (sig1 == "") = false := by simpa using hsig1
  have h2 : (sess.status != "pending") = false := by simp [hpend]
  cases payout1 with
  | ok psig =>
    have heq : (confirmDepositHandler store id sig1 v (.ok psig) now).2 =
        updateMixerSession
          (updateMixerSession store id
            (applyDepositConfirm sig1
              (if sess.senderAddress == "pending" && optTruthy v.actualSender then
                v.actualSender
              else none) now))
          id (applyPayoutSuccess psig now) := by
      simp only [confirmDepositHandler, h1, Bool.false_eq_true, if_false, hfind, h2,
        hsupp, if_true, hvalid]
    have H1 := getMixerSession_updateMixerSession store id
      (applyDepositConfirm sig1
        (if sess.senderAddress == "pending" && optTruthy v.actualSender then
          v.actualSender
        else none) now)
      (fun s => applyDepositConfirm_id _ _ _ s) sess hfind
    have H2 := getMixerSession_updateMixerSession _ id (applyPayoutSuccess psig now)
      (fun s => rfl) _ H1
    rw [heq]
    exact confirmDepositHandler_rejects_non_pending _ id sig2 w payout2 later _ H2
      (by simp [applyPayoutSuccess]) hsig2
  | error msg =>
    have heq : (confirmDepositHandler store id sig1 v (.error msg) now).2 =
        updateMixerSession
          (updateMixerSession store id
            (applyDepositConfirm sig1
              (if sess.senderAddress == "pending" && optTruthy v.actualSender then
                v.actualSender
              else none) now))
          id applyPayoutFailed := by
      simp only [confirmDepositHandler, h1, Bool.false_eq_true, if_false, hfind, h2,
        hsupp, if_true, hvalid]
    have H1 := getMixerSession_updateMixerSession store id
      (applyDepositConfirm sig1
        (if sess.senderAddress == "pending" && optTruthy v.actualSender then
          v.actualSender
        else none) now)
      (fun s => applyDepositConfirm_id _ _ _ s) sess hfind
    have H2 := getMixerSession_updateMixerSession _ id applyPayoutFailed
      (fun s => rfl) _ H1
    rw [heq]
    exact confirmDepositHandler_rejects_non_pending _ id sig2 w payout2 later _ H2
      (by simp [applyPayoutFailed]) hsig2

theorem pending_guard_blocks_second_serialized_confirm_witness :
    confirmDepositHandler (confirmDepositHandler demoStore "s1" "d1" ⟨true, none, none⟩
        (.ok "p1") 7).2 "s1" "d2" ⟨true, none, none⟩ (.ok "p2") 8 =
      (⟨400, some "Session not in pending state"⟩,
        (confirmDepositHandler demoStore "s1" "d1" ⟨true, none, none⟩ (.ok "p1") 7).2) :=
  pending_guard_blocks_second_serialized_confirm demoStore "s1" "d1" "d2"
    ⟨true, none, none⟩ ⟨true, none, none⟩ (.ok "p1") (.ok "p2") 7 8 sessPending
    (by decide) rfl (by decide) (by decide) (by decide) rfl
